import Mathlib

/-!
Verification of the llm-gateway request pipeline: a shallow embedding of the
routing engine (`app/routing`), the token-bucket admission controller
(`app/auth/rate_limiter.py`), the pricing table and cost computation
(`app/cost/tracker.py`), the fallback executor (`app/utils/retry.py`) and the
chat-completions orchestrator (`app/api/routes.py`), together with theorems
about their behaviour.  Monetary amounts and bucket levels are modelled as
exact rationals (the source uses `Decimal` for money and the algorithmic
content of the bucket is real arithmetic).
-/

namespace LLMGateway

/-- The closed set of providers of `app/providers` (`rules.py` knows exactly
these three). -/
inductive Provider
  | openai
  | deepseek
  | huggingface
deriving DecidableEq, Repr

/-- The `name` property of each concrete provider adapter. -/
def Provider.name : Provider → String
  | .openai => "openai"
  | .deepseek => "deepseek"
  | .huggingface => "huggingface"

/-- Lowercasing of a string, character by character (the effect of Python's
`str.lower` on the names involved here; stated over the character list so
that it evaluates by kernel reduction). -/
def strToLower (s : String) : String := ⟨s.data.map Char.toLower⟩

/-- Embedding of `select_provider_by_name` (`app/routing/rules.py`): a
dictionary lookup on the lowercased name, with the `"hf"` alias, raising
`ValueError` (here: `Except.error`) for an unknown name. -/
def select_provider_by_name (name : String) : Except String Provider :=
  match strToLower name with
  | "openai" => .ok .openai
  | "deepseek" => .ok .deepseek
  | "huggingface" => .ok .huggingface
  | "hf" => .ok .huggingface
  | _ => .error ("Unknown provider: " ++ name)

/-- Embedding of `select_provider` (`app/routing/router.py`).  Python
truthiness on `provider_override` means a `None` or empty-string override
falls through to the rule chain. -/
def select_provider (task budget : Option String) (latency_sensitive : Bool)
    (provider_override : Option String) : Except String Provider :=
  let rest :=
    if task = some "summarization" then select_provider_by_name "deepseek"
    else if task = some "reasoning" then select_provider_by_name "huggingface"
    else if latency_sensitive then select_provider_by_name "openai"
    else if budget = some "low" then select_provider_by_name "deepseek"
    else if budget = some "high" then select_provider_by_name "openai"
    else select_provider_by_name "openai"
  match provider_override with
  | some ov => if ov ≠ "" then select_provider_by_name ov else rest
  | none => rest

/-- The routing decision table exactly as the specification states rules 2-7
(no override): summarization → deepseek, reasoning → huggingface,
latency-sensitive → openai, low budget → deepseek, high budget → openai,
default → openai; first match wins. -/
def routing_table (task budget : Option String) (latency_sensitive : Bool) :
    Provider :=
  if task = some "summarization" then .deepseek
  else if task = some "reasoning" then .huggingface
  else if latency_sensitive then .openai
  else if budget = some "low" then .deepseek
  else if budget = some "high" then .openai
  else .openai

/-- The full routing decision table of the specification, rule 1 included: an
explicit override (a non-empty provider name) wins and the outcome is that
provider (an unknown name is an error); otherwise rules 2-7 apply. -/
def routing_table_full (task budget : Option String) (latency_sensitive : Bool)
    (provider_override : Option String) : Except String Provider :=
  match provider_override with
  | some ov =>
      if ov ≠ "" then select_provider_by_name ov
      else .ok (routing_table task budget latency_sensitive)
  | none => .ok (routing_table task budget latency_sensitive)

end LLMGateway

namespace LLMGateway

/-- C1: `select_provider` agrees with the specification's decision table on
every combination of routing hints: a (non-empty) explicit override wins,
else summarization → deepseek, else reasoning → huggingface, else
latency-sensitive → openai, else low budget → deepseek, else high budget →
openai, else openai. -/
theorem select_provider_matches_routing_table
    (task budget : Option String) (latency_sensitive : Bool)
    (provider_override : Option String) :
    select_provider task budget latency_sensitive provider_override =
      routing_table_full task budget latency_sensitive provider_override := by
  cases provider_override with
  | none =>
      simp only [select_provider, routing_table_full, routing_table]
      split_ifs <;> rfl
  | some ov =>
      by_cases hov : ov = ""
      · subst hov
        simp only [select_provider, routing_table_full, routing_table]
        split_ifs <;> simp_all <;> rfl
      · simp [select_provider, routing_table_full, hov]

/-- The state of a `TokenBucket` (`app/auth/rate_limiter.py`).  Levels and
timestamps are modelled as exact rationals. -/
structure TokenBucket where
  capacity : ℚ
  refill_rate : ℚ
  tokens : ℚ
  last_refill : ℚ
deriving DecidableEq, Repr

/-- Embedding of `TokenBucket.consume` with the clock passed explicitly:
refill from the elapsed time capped at the capacity, stamp the refill time,
then consume `n` tokens when the level allows it.  Returns the success flag
together with the new state. -/
def TokenBucket.consume (b : TokenBucket) (now : ℚ) (n : ℚ) :
    Bool × TokenBucket :=
  let elapsed := now - b.last_refill
  let tokens' := min b.capacity (b.tokens + elapsed * b.refill_rate)
  if n ≤ tokens' then
    (true, { b with tokens := tokens' - n, last_refill := now })
  else
    (false, { b with tokens := tokens', last_refill := now })

/-- Embedding of `TokenBucket.get_retry_after`: seconds until the next token,
zero when a token is already available. -/
def TokenBucket.get_retry_after (b : TokenBucket) : ℚ :=
  if 1 ≤ b.tokens then 0 else (1 - b.tokens) / b.refill_rate

/-- Truncation toward zero, the effect of Python's `int()` on a number. -/
def pyInt (q : ℚ) : ℤ := if 0 ≤ q then ⌊q⌋ else ⌈q⌉

/-- Embedding of `RateLimiter.check_rate_limit` on one bucket: one `consume`
of a single token; on failure the 429 outcome carries
`int(get_retry_after()) + 1` (here the error value), on success the new
bucket state. -/
def check_rate_limit (b : TokenBucket) (now : ℚ) : Except ℤ TokenBucket :=
  match b.consume now 1 with
  | (true, b') => .ok b'
  | (false, b') => .error (pyInt b'.get_retry_after + 1)

/-- The bucket `RateLimiter._get_or_create_bucket` builds for a key with
`rate_limit_per_minute = R`: capacity `R`, refill rate `R / 60`, initially
full, last refill stamped at creation time. -/
def mkBucket (rate_limit_per_minute : ℕ) (created : ℚ) : TokenBucket :=
  { capacity := rate_limit_per_minute
    refill_rate := rate_limit_per_minute / 60
    tokens := rate_limit_per_minute
    last_refill := created }

/-- The bucket state after `k` admission attempts at one instant. -/
def iterateAdmit (b : TokenBucket) (now : ℚ) : ℕ → TokenBucket
  | 0 => b
  | k + 1 => ((iterateAdmit b now k).consume now 1).2

end LLMGateway

namespace LLMGateway

/-- C2: for a bucket with refill rate `capacity / 60`, a well-formed level
`0 ≤ tokens ≤ capacity` and a monotone clock, an `Admit` (a `consume` of one
token) that returns Ok leaves the level at
`min capacity (tokens + (now - last_refill) * rate) - 1`, and after every
`Admit`, Ok or not, the level lies in `[0, capacity]`. -/
theorem consume_level_invariant (b : TokenBucket) (now : ℚ)
    (hrate : b.refill_rate = b.capacity / 60) (hcap : 0 ≤ b.capacity)
    (h0 : 0 ≤ b.tokens) (h1 : b.tokens ≤ b.capacity)
    (hclock : b.last_refill ≤ now) :
    ((b.consume now 1).1 = true →
      (b.consume now 1).2.tokens =
        min b.capacity (b.tokens + (now - b.last_refill) * b.refill_rate) - 1) ∧
    0 ≤ (b.consume now 1).2.tokens ∧
    (b.consume now 1).2.tokens ≤ b.capacity := by
  have hr : 0 ≤ b.refill_rate := by rw [hrate]; positivity
  have helap : 0 ≤ (now - b.last_refill) * b.refill_rate :=
    mul_nonneg (by linarith) hr
  have hmin_le :=
    min_le_left b.capacity (b.tokens + (now - b.last_refill) * b.refill_rate)
  have hmin_ge :
      0 ≤ min b.capacity (b.tokens + (now - b.last_refill) * b.refill_rate) :=
    le_min hcap (by linarith)
  by_cases hok :
      (1 : ℚ) ≤ min b.capacity (b.tokens + (now - b.last_refill) * b.refill_rate)
  · have hc : b.consume now 1 =
        (true, { b with
          tokens :=
            min b.capacity (b.tokens + (now - b.last_refill) * b.refill_rate) - 1
          last_refill := now }) := by
      simp [TokenBucket.consume, hok]
    rw [hc]
    exact ⟨fun _ => rfl, by simp only; linarith, by simp only; linarith⟩
  · have hc : b.consume now 1 =
        (false, { b with
          tokens :=
            min b.capacity (b.tokens + (now - b.last_refill) * b.refill_rate)
          last_refill := now }) := by
      simp [TokenBucket.consume, hok]
    rw [hc]
    exact ⟨by simp, by simp only; linarith, by simp only; linarith⟩

/-- Witness for `consume_level_invariant`: a full bucket of capacity 60 with
rate 1, admitted at its creation instant. -/
theorem consume_level_invariant_witness :
    ((mkBucket 60 0).consume 0 1).1 = true ∧
    ((mkBucket 60 0).consume 0 1).2.tokens = 59 := by
  have h := consume_level_invariant (mkBucket 60 0) 0
    (by norm_num [mkBucket]) (by norm_num [mkBucket]) (by norm_num [mkBucket])
    (by norm_num [mkBucket]) (by norm_num [mkBucket])
  have h1 : ((mkBucket 60 0).consume 0 1).1 = true := by
    norm_num [mkBucket, TokenBucket.consume]
  refine ⟨h1, ?_⟩
  rw [h.1 h1]
  norm_num [mkBucket]

/-- One admission step on a capacity-60 rate-1 bucket at instant 0 with at
least one token present. -/
theorem consume_step_60 (t : ℚ) (h0 : 1 ≤ t) (h1 : t ≤ 60) :
    TokenBucket.consume ⟨60, 1, t, 0⟩ 0 1 = (true, ⟨60, 1, t - 1, 0⟩) := by
  have e : t + (0 - (0 : ℚ)) * 1 = t := by ring
  simp only [TokenBucket.consume]
  rw [e, min_eq_right h1, if_pos h0]

/-- After `k ≤ 60` admissions at instant 0, the capacity-60 bucket holds
`60 - k` tokens. -/
theorem iterateAdmit_mkBucket60 : ∀ k ≤ 60,
    iterateAdmit (mkBucket 60 0) 0 k = ⟨60, 1, 60 - (k : ℚ), 0⟩ := by
  intro k hk
  induction k with
  | zero =>
      simp only [iterateAdmit, mkBucket]
      norm_num
  | succ n ih =>
      have hn : n ≤ 59 := by omega
      have hnq : (n : ℚ) ≤ 59 := by exact_mod_cast hn
      rw [iterateAdmit, ih (by omega)]
      have hcast : (0 : ℚ) ≤ (n : ℚ) := by positivity
      rw [consume_step_60 (60 - (n : ℚ)) (by linarith) (by linarith)]
      push_cast
      rw [show (60 : ℚ) - ((n : ℚ) + 1) = 60 - (n : ℚ) - 1 from by ring]

/-- Dispatch lemma: an admission whose `consume` succeeds returns the new
bucket state. -/
theorem check_rate_limit_ok (b b' : TokenBucket) (now : ℚ)
    (h : b.consume now 1 = (true, b')) : check_rate_limit b now = .ok b' := by
  unfold check_rate_limit
  rw [h]

/-- Dispatch lemma: an admission whose `consume` fails is throttled with
`int(get_retry_after()) + 1`. -/
theorem check_rate_limit_throttled (b b' : TokenBucket) (now : ℚ)
    (h : b.consume now 1 = (false, b')) :
    check_rate_limit b now = .error (pyInt b'.get_retry_after + 1) := by
  unfold check_rate_limit
  rw [h]

/-- The 61st admission at instant 0 on the capacity-60 rate-1 bucket: the
level after refill is 0, `get_retry_after` returns exactly 1 second, and
`check_rate_limit` reports `int(1) + 1 = 2`. -/
theorem check_rate_limit_61st :
    check_rate_limit (iterateAdmit (mkBucket 60 0) 0 60) 0 = .error 2 := by
  rw [iterateAdmit_mkBucket60 60 le_rfl]
  have e : (60 : ℚ) - (60 : ℕ) = 0 := by norm_num
  rw [e]
  have hc : TokenBucket.consume ⟨60, 1, 0, 0⟩ 0 1 = (false, ⟨60, 1, 0, 0⟩) := by
    have e2 : (0 : ℚ) + (0 - 0) * 1 = 0 := by ring
    simp only [TokenBucket.consume]
    rw [e2, min_eq_right (by norm_num : (0 : ℚ) ≤ 60), if_neg (by norm_num)]
  rw [check_rate_limit_throttled _ _ _ hc]
  have hra : TokenBucket.get_retry_after ⟨60, 1, 0, 0⟩ = 1 := by
    simp only [TokenBucket.get_retry_after]
    rw [if_neg (by norm_num)]
    norm_num
  rw [hra]
  simp [pyInt]

end LLMGateway

namespace LLMGateway

/-- C4 counterexample: with capacity 60 and refill rate 1 token per second,
the 61st `Admit` at time 0 is throttled with `retry_after = 2`, not 1 as the
claim states (the code computes `int((1 - t)/r) + 1`, which exceeds the
ceiling exactly when `(1 - t)/r` is an integer). -/
theorem retry_after_61st_not_one :
    check_rate_limit (iterateAdmit (mkBucket 60 0) 0 60) 0 ≠ .error 1 ∧
    check_rate_limit (iterateAdmit (mkBucket 60 0) 0 60) 0 = .error 2 := by
  rw [check_rate_limit_61st]
  exact ⟨by simp, rfl⟩

/-- C4 amended: whenever `Admit` rejects, the throttled outcome carries
`retry_after = ⌊(1 - t)/r⌋ + 1` where `t` is the refilled level and `r` the
refill rate — at least 1, and equal to the ceiling of `(1 - t)/r` except when
that quotient is an integer, where it is one more; in particular the 61st
admission at time 0 on a capacity-60, 1 token/s bucket is throttled with
`retry_after = 2`. -/
theorem retry_after_floor_plus_one :
    (∀ (b : TokenBucket) (now : ℚ), 0 < b.refill_rate →
      ∀ ra : ℤ, check_rate_limit b now = .error ra →
        ra = ⌊(1 - min b.capacity
                (b.tokens + (now - b.last_refill) * b.refill_rate)) /
              b.refill_rate⌋ + 1 ∧ 1 ≤ ra) ∧
    check_rate_limit (iterateAdmit (mkBucket 60 0) 0 60) 0 = .error 2 := by
  refine ⟨?_, check_rate_limit_61st⟩
  intro b now hr ra hra
  set t' := min b.capacity (b.tokens + (now - b.last_refill) * b.refill_rate)
    with ht'
  by_cases hok : (1 : ℚ) ≤ t'
  · exfalso
    have hc : b.consume now 1 =
        (true, { b with tokens := t' - 1, last_refill := now }) := by
      simp [TokenBucket.consume, ← ht', hok]
    rw [check_rate_limit_ok _ _ _ hc] at hra
    exact absurd hra (by simp)
  · have hc : b.consume now 1 =
        (false, { b with tokens := t', last_refill := now }) := by
      simp [TokenBucket.consume, ← ht', hok]
    have hlt : t' < 1 := lt_of_not_le hok
    have hpos : 0 < (1 - t') / b.refill_rate := by
      apply div_pos (by linarith) hr
    have hget : TokenBucket.get_retry_after
        { b with tokens := t', last_refill := now } = (1 - t') / b.refill_rate := by
      simp only [TokenBucket.get_retry_after]
      rw [if_neg hok]
    rw [check_rate_limit_throttled _ _ _ hc, hget] at hra
    have hint : pyInt ((1 - t') / b.refill_rate) = ⌊(1 - t') / b.refill_rate⌋ := by
      simp [pyInt, le_of_lt hpos]
    rw [hint, Except.error.injEq] at hra
    constructor
    · exact hra.symm
    · have : (0 : ℤ) ≤ ⌊(1 - t') / b.refill_rate⌋ :=
        Int.floor_nonneg.mpr (le_of_lt hpos)
      omega

/-- Witness for `retry_after_floor_plus_one`: the empty capacity-60 rate-1
bucket at instant 0 is throttled with value `⌊1/1⌋ + 1 = 2`. -/
theorem retry_after_floor_plus_one_witness :
    (2 : ℤ) = ⌊((1 : ℚ) - min (60 : ℚ)
        ((0 : ℚ) + ((0 : ℚ) - 0) * 1)) / 1⌋ + 1 ∧ (1 : ℤ) ≤ 2 := by
  have hc : check_rate_limit ⟨60, 1, 0, 0⟩ 0 = .error 2 := by
    have hcons : TokenBucket.consume ⟨60, 1, 0, 0⟩ 0 1 = (false, ⟨60, 1, 0, 0⟩) := by
      have e2 : (0 : ℚ) + (0 - 0) * 1 = 0 := by ring
      simp only [TokenBucket.consume]
      rw [e2, min_eq_right (by norm_num : (0 : ℚ) ≤ 60), if_neg (by norm_num)]
    rw [check_rate_limit_throttled _ _ _ hcons]
    have hra : TokenBucket.get_retry_after ⟨60, 1, 0, 0⟩ = 1 := by
      simp only [TokenBucket.get_retry_after]
      rw [if_neg (by norm_num)]
      norm_num
    rw [hra]
    simp [pyInt]
  exact retry_after_floor_plus_one.1 ⟨60, 1, 0, 0⟩ 0 (by norm_num) 2 hc

/-- The static pricing table `PRICING` of `app/cost/tracker.py`: per-provider
ordered maps from model name to (input, output) dollars per 1K tokens.
`Decimal` literals are exact rationals. -/
def PRICING : List (String × List (String × ℚ × ℚ)) :=
  [("openai",
     [("gpt-4", (0.03, 0.06)),
      ("gpt-4-turbo-preview", (0.01, 0.03)),
      ("gpt-3.5-turbo", (0.0015, 0.002)),
      ("gpt-3.5-turbo-16k", (0.003, 0.004))]),
   ("deepseek",
     [("deepseek-chat", (0.00014, 0.00028)),
      ("deepseek-coder", (0.00014, 0.00028))]),
   ("huggingface",
     [("llama-3", (0.0, 0.0)),
      ("mixtral", (0.0, 0.0)),
      ("qwen", (0.0, 0.0)),
      ("meta-llama/Meta-Llama-3-8B-Instruct", (0.0, 0.0)),
      ("mistralai/Mixtral-8x7B-Instruct-v0.1", (0.0, 0.0)),
      ("Qwen/Qwen2-7B-Instruct", (0.0, 0.0))])]

/-- Embedding of `calculate_cost` (`app/cost/tracker.py`): exact
`(provider, model)` lookup, else the first entry under the provider, else
zero; then `(tokens / 1000) * price_per_1K` for each direction, in exact
decimal arithmetic. -/
def calculate_cost (provider model : String) (tokens_in tokens_out : ℕ) : ℚ :=
  let provider_pricing := (PRICING.lookup provider).getD []
  let model_pricing :=
    match provider_pricing.lookup model with
    | some mp => some mp
    | none => provider_pricing.head?.map Prod.snd
  match model_pricing with
  | none => 0
  | some (pin, pout) =>
      (tokens_in : ℚ) / 1000 * pin + (tokens_out : ℚ) / 1000 * pout

/-- The exact `(provider, model)` pricing entry, when present. -/
def pricing_entry (provider model : String) : Option (ℚ × ℚ) :=
  (PRICING.lookup provider).bind (fun l => l.lookup model)

/-- Unfolding of `calculate_cost` on an exact `(provider, model)` hit. -/
theorem calculate_cost_of_entry (provider model : String)
    {l : List (String × ℚ × ℚ)} {pin pout : ℚ} (tokens_in tokens_out : ℕ)
    (hl : PRICING.lookup provider = some l)
    (hm : l.lookup model = some (pin, pout)) :
    calculate_cost provider model tokens_in tokens_out =
      (tokens_in : ℚ) / 1000 * pin + (tokens_out : ℚ) / 1000 * pout := by
  simp only [calculate_cost, hl, Option.getD_some, hm]

/-- Unfolding of `calculate_cost` when the provider is known but the model is
not priced: the first entry under the provider is used. -/
theorem calculate_cost_of_first (provider model : String)
    {l : List (String × ℚ × ℚ)} {m₀ : String} {pin pout : ℚ}
    (tokens_in tokens_out : ℕ)
    (hl : PRICING.lookup provider = some l)
    (hm : l.lookup model = none) (hh : l.head? = some (m₀, pin, pout)) :
    calculate_cost provider model tokens_in tokens_out =
      (tokens_in : ℚ) / 1000 * pin + (tokens_out : ℚ) / 1000 * pout := by
  simp only [calculate_cost, hl, Option.getD_some, hm, hh, Option.map_some']

/-- Unfolding of `calculate_cost` on an unknown provider: zero. -/
theorem calculate_cost_of_unknown {provider : String} (model : String)
    (tokens_in tokens_out : ℕ) (hl : PRICING.lookup provider = none) :
    calculate_cost provider model tokens_in tokens_out = 0 := by
  simp only [calculate_cost, hl, Option.getD_none, List.lookup_nil,
    List.head?_nil, Option.map_none']

end LLMGateway

namespace LLMGateway

/-- C3: for every priced `(provider, model)` the cost is exactly
`tokens_in * p_in / 1000 + tokens_out * p_out / 1000` in exact decimal
arithmetic, and the golden values hold: `(openai, gpt-3.5-turbo, 1000, 500)`
costs 0.0025, `(openai, gpt-4, 1000, 500)` costs 0.06,
`(deepseek, deepseek-chat, 1000, 500)` costs 0.00028,
`(huggingface, llama-3, 1000, 500)` costs 0, and any model under the unknown
provider costs 0. -/
theorem cost_formula_and_golden_values :
    (∀ (provider model : String) (pin pout : ℚ) (tokens_in tokens_out : ℕ),
      pricing_entry provider model = some (pin, pout) →
      calculate_cost provider model tokens_in tokens_out =
        (tokens_in : ℚ) * pin / 1000 + (tokens_out : ℚ) * pout / 1000) ∧
    calculate_cost "openai" "gpt-3.5-turbo" 1000 500 = 0.0025 ∧
    calculate_cost "openai" "gpt-4" 1000 500 = 0.06 ∧
    calculate_cost "deepseek" "deepseek-chat" 1000 500 = 0.00028 ∧
    calculate_cost "huggingface" "llama-3" 1000 500 = 0 ∧
    ∀ model : String, calculate_cost "unknown" model 1000 500 = 0 := by
  refine ⟨?_, ?_, ?_, ?_, ?_, ?_⟩
  · intro provider model pin pout tokens_in tokens_out h
    obtain ⟨ll, hl, hm⟩ := Option.bind_eq_some.mp h
    rw [calculate_cost_of_entry provider model tokens_in tokens_out hl hm]
    ring
  · rw [calculate_cost_of_entry "openai" "gpt-3.5-turbo" 1000 500 rfl rfl]
    norm_num
  · rw [calculate_cost_of_entry "openai" "gpt-4" 1000 500 rfl rfl]
    norm_num
  · rw [calculate_cost_of_entry "deepseek" "deepseek-chat" 1000 500 rfl rfl]
    norm_num
  · rw [calculate_cost_of_entry "huggingface" "llama-3" 1000 500 rfl rfl]
    norm_num
  · intro model
    exact calculate_cost_of_unknown model 1000 500 rfl

/-- Witness for `cost_formula_and_golden_values`: the formula instantiated at
`(deepseek, deepseek-coder, 2000, 3000)`. -/
theorem cost_formula_and_golden_values_witness :
    calculate_cost "deepseek" "deepseek-coder" 2000 3000 =
      (2000 : ℚ) * 0.00014 / 1000 + (3000 : ℚ) * 0.00028 / 1000 :=
  cost_formula_and_golden_values.1 "deepseek" "deepseek-coder" 0.00014 0.00028
    2000 3000 rfl

/-- The normalised response of `app/providers/base.py` (`ProviderResponse`),
the metadata bag omitted. -/
structure ProviderResponse where
  content : String
  model : String
  tokens_in : ℕ
  tokens_out : ℕ
  request_id : String
  finish_reason : Option String
deriving DecidableEq, Repr

/-- The provider error taxonomy of `app/providers/base.py`:
`ProviderTimeoutError`, `ProviderRateLimitError` and the base
`ProviderError`, each carrying its message. -/
inductive PErr
  | timeout (msg : String)
  | rateLimitUpstream (msg : String)
  | providerError (msg : String)
deriving DecidableEq, Repr

/-- The message of a provider error (Python's `str(e)`). -/
def PErr.msg : PErr → String
  | .timeout m => m
  | .rateLimitUpstream m => m
  | .providerError m => m

/-- What one invocation of a provider does: succeed, fail with an error of
the taxonomy, or raise something outside it (the generic `except Exception`
branch of `call_with_fallback`). -/
inductive Outcome
  | ok (r : ProviderResponse)
  | err (e : PErr)
  | unexpected (msg : String)
deriving DecidableEq, Repr

/-- Embedding of the loop of `call_with_fallback` (`app/utils/retry.py`),
instrumented with the list of providers actually invoked.  A taxonomy error
moves on to the next provider unless this is the last one, in which case it
is re-raised; a non-taxonomy error is wrapped in `ProviderError` and raised
at once; on the empty list `ProviderError("No providers available")` is
raised.  The boolean accumulator is `fallback_used`. -/
def callWithFallbackAux (beh : Provider → Outcome) :
    List Provider → Bool →
      Except PErr (ProviderResponse × Provider × Bool) × List Provider
  | [], _ => (.error (.providerError "No providers available"), [])
  | p :: rest, fallback_used =>
    match beh p with
    | .ok r => (.ok (r, p, fallback_used), [p])
    | .err e =>
        match rest with
        | [] => (.error e, [p])
        | _ :: _ =>
            let next := callWithFallbackAux beh rest true
            (next.1, p :: next.2)
    | .unexpected m =>
        (.error (.providerError ("Unexpected error from " ++ p.name ++ ": " ++ m)),
         [p])

/-- Embedding of `call_with_fallback`: the walk starts with
`fallback_used = False`. -/
def call_with_fallback (beh : Provider → Outcome) (providers : List Provider) :
    Except PErr (ProviderResponse × Provider × Bool) × List Provider :=
  callWithFallbackAux beh providers false

/-- The canonical fallback chain `get_provider_fallback_chain`
(`app/routing/rules.py`): openai, deepseek, huggingface. -/
def get_provider_fallback_chain : List Provider :=
  [.openai, .deepseek, .huggingface]

/-- The provider list the endpoint hands to the fallback executor
(`app/api/routes.py`): the primary first, then the canonical chain with
providers of the primary's name removed, truncated to two fallbacks. -/
def providers_to_try (primary : Provider) : List Provider :=
  primary ::
    (get_provider_fallback_chain.filter (fun p => p.name != primary.name)).take 2

/-- The chat-completion request body (`ChatCompletionRequest` in
`app/api/routes.py`): routing hints, messages as (role, content) pairs and an
optional model override for the provider call. -/
structure ChatRequest where
  task : Option String
  budget : Option String
  latency_sensitive : Bool
  messages : List (String × String)
  model : Option String
deriving DecidableEq, Repr

/-- The chat-completion response body (`ChatCompletionResponse`), flattened:
the single choice's fields, the usage block, the serving provider's name and
the cost. -/
structure ChatCompletionResponse where
  id : String
  model : String
  content : String
  finish_reason : Option String
  prompt_tokens : ℕ
  completion_tokens : ℕ
  total_tokens : ℕ
  provider : String
  cost_usd : ℚ
deriving DecidableEq, Repr

/-- Substring containment, the effect of Python's `in` on strings. -/
def strContains (s pat : String) : Bool := decide (pat.data <:+: s.data)

/-- Provider attribution of `record_cost` (`app/cost/tracker.py`): substring
match on the lowercased model name. -/
def provider_from_model (model : String) : String :=
  let model_lower := strToLower model
  if strContains model_lower "gpt" then "openai"
  else if strContains model_lower "deepseek" then "deepseek"
  else if strContains model_lower "llama" || strContains model_lower "mixtral"
      || strContains model_lower "qwen" then "huggingface"
  else "unknown"

/-- The cost `record_cost` computes and persists for a provider response. -/
def record_cost (resp : ProviderResponse) : ℚ :=
  calculate_cost (provider_from_model resp.model) resp.model
    resp.tokens_in resp.tokens_out

/-- The router invocation of the chat-completions handler, verbatim: the
handler always passes `provider_override = None`. -/
def handler_primary (req : ChatRequest) : Except String Provider :=
  select_provider req.task req.budget req.latency_sensitive none

/-- Embedding of the `chat_completions` endpoint (`app/api/routes.py`) on the
paths the external world observes, with the stateful collaborators passed as
oracles: `admitted` is the rate limiter's verdict, `beh` what each provider
invocation does, `dbOk` whether the cost-record write succeeds.  Errors carry
the HTTP status and detail string.  A failed cost write is swallowed and
reported as cost 0. -/
def chat_completions (req : ChatRequest) (admitted : Bool)
    (beh : Provider → Outcome) (dbOk : Bool) :
    Except (ℕ × String) ChatCompletionResponse :=
  if !admitted then .error (429, "Rate limit exceeded")
  else
    match handler_primary req with
    | .error e => .error (500, "Internal server error: " ++ e)
    | .ok primary =>
      match (call_with_fallback beh (providers_to_try primary)).1 with
      | .error e => .error (503, "LLM provider error: " ++ e.msg)
      | .ok (resp, used, _fallback_used) =>
          let cost_usd : ℚ := if dbOk then record_cost resp else 0
          .ok { id := resp.request_id
                model := resp.model
                content := resp.content
                finish_reason := resp.finish_reason
                prompt_tokens := resp.tokens_in
                completion_tokens := resp.tokens_out
                total_tokens := resp.tokens_in + resp.tokens_out
                provider := used.name
                cost_usd := cost_usd }

/-- Without an override, `select_provider` computes the decision table of
rules 2-7. -/
theorem select_provider_none (task budget : Option String)
    (latency_sensitive : Bool) :
    select_provider task budget latency_sensitive none =
      .ok (routing_table task budget latency_sensitive) := by
  simp only [select_provider, routing_table]
  split_ifs <;> rfl

/-- The handler's router invocation always succeeds and lands on the
no-override decision table. -/
theorem handler_primary_eq (req : ChatRequest) :
    handler_primary req =
      .ok (routing_table req.task req.budget req.latency_sensitive) :=
  select_provider_none req.task req.budget req.latency_sensitive

/-- The invocation trace of the fallback walk is a prefix of the provider
list handed to it. -/
theorem callWithFallbackAux_trace_prefix (beh : Provider → Outcome) :
    ∀ (l : List Provider) (fb : Bool),
      (callWithFallbackAux beh l fb).2 <+: l := by
  intro l
  induction l with
  | nil => intro fb; exact ⟨[], rfl⟩
  | cons p rest ih =>
      intro fb
      simp only [callWithFallbackAux]
      cases beh p with
      | ok r => exact ⟨rest, rfl⟩
      | err e =>
          cases rest with
          | nil => exact ⟨[], rfl⟩
          | cons a rest' =>
              obtain ⟨t, ht⟩ := ih true
              exact ⟨t, by simp only [List.cons_append, ht]⟩
      | unexpected m => exact ⟨rest, rfl⟩

/-- When the fallback walk succeeds, its trace is the failing prefix followed
by the one provider that succeeded, and that provider produced the returned
response. -/
theorem callWithFallbackAux_success (beh : Provider → Outcome) :
    ∀ (l : List Provider) (fb : Bool) (r : ProviderResponse) (q : Provider)
      (f : Bool),
      (callWithFallbackAux beh l fb).1 = .ok (r, q, f) →
      ∃ pre, (callWithFallbackAux beh l fb).2 = pre ++ [q] ∧
        (∀ p ∈ pre, ∀ r', beh p ≠ .ok r') ∧ beh q = .ok r := by
  intro l
  induction l with
  | nil => intro fb r q f h; simp [callWithFallbackAux] at h
  | cons p rest ih =>
      intro fb r q f h
      simp only [callWithFallbackAux] at h ⊢
      cases hb : beh p with
      | ok r0 =>
          rw [hb] at h
          simp only [Except.ok.injEq, Prod.mk.injEq] at h
          obtain ⟨hr, hq, _⟩ := h
          refine ⟨[], by simp [hq], by simp, ?_⟩
          rw [← hq, hb, hr]
      | err e =>
          rw [hb] at h
          cases rest with
          | nil => simp at h
          | cons a rest' =>
              obtain ⟨pre, htr, hpre, hq⟩ := ih true r q f h
              refine ⟨p :: pre, by simp [htr], ?_, hq⟩
              intro x hx r'
              rcases List.mem_cons.mp hx with rfl | hx'
              · rw [hb]; simp
              · exact hpre x hx' r'
      | unexpected m => rw [hb] at h; simp at h

/-- The provider lists the endpoint can hand to the executor, by primary. -/
theorem providers_to_try_eq : ∀ primary : Provider,
    providers_to_try primary =
      match primary with
      | .openai => [.openai, .deepseek, .huggingface]
      | .deepseek => [.deepseek, .openai, .huggingface]
      | .huggingface => [.huggingface, .openai, .deepseek] := by
  intro primary
  cases primary <;> rfl

end LLMGateway

namespace LLMGateway

/-- C5: for every behaviour of the upstream providers and every primary, the
list handed to the fallback executor is the primary followed by the canonical
chain `[openai, deepseek, huggingface]` with the primary removed, truncated
to three elements; the walk invokes each provider at most once, makes at most
three invocations, and never invokes a provider after the first success. -/
theorem fallback_invocation_bounds (beh : Provider → Outcome)
    (primary : Provider) :
    providers_to_try primary =
      (primary ::
        get_provider_fallback_chain.filter (fun p => p != primary)).take 3 ∧
    (call_with_fallback beh (providers_to_try primary)).2.Nodup ∧
    (call_with_fallback beh (providers_to_try primary)).2.length ≤ 3 ∧
    ∀ (r : ProviderResponse) (q : Provider) (fb : Bool),
      (call_with_fallback beh (providers_to_try primary)).1 = .ok (r, q, fb) →
      ∃ pre, (call_with_fallback beh (providers_to_try primary)).2 = pre ++ [q] ∧
        ∀ p ∈ pre, ∀ r', beh p ≠ .ok r' := by
  have hpre := callWithFallbackAux_trace_prefix beh (providers_to_try primary) false
  have hnodup : (providers_to_try primary).Nodup := by
    rw [providers_to_try_eq]
    cases primary <;> decide
  have hlen : (providers_to_try primary).length = 3 := by
    rw [providers_to_try_eq]
    cases primary <;> rfl
  refine ⟨?_, ?_, ?_, ?_⟩
  · cases primary <;> rfl
  · exact hnodup.sublist hpre.sublist
  · calc (call_with_fallback beh (providers_to_try primary)).2.length
        ≤ (providers_to_try primary).length := hpre.length_le
      _ = 3 := hlen
  · intro r q fb h
    obtain ⟨pre, htr, hfailed, _⟩ :=
      callWithFallbackAux_success beh (providers_to_try primary) false r q fb h
    exact ⟨pre, htr, hfailed⟩

end LLMGateway

namespace LLMGateway

/-- When every provider of the list fails with a taxonomy error, the walk
surfaces the last provider's error. -/
theorem callWithFallbackAux_all_fail (beh : Provider → Outcome)
    (errOf : Provider → PErr) :
    ∀ (l : List Provider) (fb : Bool) (q : Provider),
      l.getLast? = some q → (∀ p ∈ l, beh p = .err (errOf p)) →
      (callWithFallbackAux beh l fb).1 = .error (errOf q) := by
  intro l
  induction l with
  | nil => intro fb q hq _; simp at hq
  | cons p rest ih =>
      intro fb q hq hall
      have hbp : beh p = .err (errOf p) := hall p (by simp)
      simp only [callWithFallbackAux]
      rw [hbp]
      cases rest with
      | nil =>
          simp only [List.getLast?_singleton, Option.some.injEq] at hq
          subst hq
          rfl
      | cons a rest' =>
          have hq' : (a :: rest').getLast? = some q := by
            rwa [List.getLast?_cons_cons] at hq
          exact ih true q hq' (fun x hx => hall x (by simp [hx]))

/-- C6: if every provider in the handed list fails with an error of the
provider taxonomy, the fallback executor raises the last provider's error,
and the chat-completions endpoint maps the failure to HTTP 503 carrying the
last error's message. -/
theorem all_providers_fail_503 (req : ChatRequest) (beh : Provider → Outcome)
    (errOf : Provider → PErr) (dbOk : Bool) (q : Provider)
    (hfail : ∀ p ∈ providers_to_try
        (routing_table req.task req.budget req.latency_sensitive),
      beh p = .err (errOf p))
    (hlast : (providers_to_try
        (routing_table req.task req.budget req.latency_sensitive)).getLast? =
      some q) :
    (call_with_fallback beh (providers_to_try
        (routing_table req.task req.budget req.latency_sensitive))).1 =
      .error (errOf q) ∧
    chat_completions req true beh dbOk =
      .error (503, "LLM provider error: " ++ (errOf q).msg) := by
  have hwalk := callWithFallbackAux_all_fail beh errOf
    (providers_to_try (routing_table req.task req.budget req.latency_sensitive))
    false q hlast hfail
  refine ⟨hwalk, ?_⟩
  simp [chat_completions, handler_primary_eq req, call_with_fallback, hwalk]

/-- C7: if the provider walk succeeds but the cost-record write fails, the
endpoint still returns the success response, with `cost_usd` exactly 0. -/
theorem db_failure_cost_zero (req : ChatRequest) (beh : Provider → Outcome)
    (r : ProviderResponse) (q : Provider) (fb : Bool)
    (hok : (call_with_fallback beh (providers_to_try
        (routing_table req.task req.budget req.latency_sensitive))).1 =
      .ok (r, q, fb)) :
    chat_completions req true beh false =
      .ok { id := r.request_id
            model := r.model
            content := r.content
            finish_reason := r.finish_reason
            prompt_tokens := r.tokens_in
            completion_tokens := r.tokens_out
            total_tokens := r.tokens_in + r.tokens_out
            provider := q.name
            cost_usd := 0 } := by
  simp [chat_completions, handler_primary_eq req, hok]

/-- C10: the chat-completions handler invokes the router with
`provider_override = None`, so its primary always comes from rules 2-7 of
the decision table, and two requests agreeing on task, budget and the
latency flag — whatever their model or other body fields — get the same
primary provider. -/
theorem override_unreachable_from_api :
    (∀ req : ChatRequest, handler_primary req =
      .ok (routing_table req.task req.budget req.latency_sensitive)) ∧
    (∀ req req' : ChatRequest, req.task = req'.task →
      req.budget = req'.budget →
      req.latency_sensitive = req'.latency_sensitive →
      handler_primary req = handler_primary req') := by
  refine ⟨handler_primary_eq, ?_⟩
  intro req req' h1 h2 h3
  rw [handler_primary_eq, handler_primary_eq, h1, h2, h3]

/-- A concrete normalised response used by the witnesses. -/
def respStub : ProviderResponse :=
  { content := "ok"
    model := "gpt-4"
    tokens_in := 1
    tokens_out := 2
    request_id := "req-000000000000"
    finish_reason := some "stop" }

/-- A behaviour where every provider succeeds at once. -/
def behAllOk : Provider → Outcome := fun _ => .ok respStub

/-- The timeout each provider reports in the all-fail witness. -/
def timeoutOf : Provider → PErr :=
  fun p => .timeout ("timeout from " ++ p.name)

/-- A behaviour where every provider times out. -/
def behAllTimeout : Provider → Outcome := fun p => .err (timeoutOf p)

/-- A concrete request with no routing hints. -/
def reqStub : ChatRequest :=
  { task := none
    budget := none
    latency_sensitive := false
    messages := [("user", "hello")]
    model := none }

/-- The same request with a model override, for the C10 witness. -/
def reqStubModel : ChatRequest := { reqStub with model := some "gpt-4" }

/-- Witness for `fallback_invocation_bounds`: with every provider succeeding
and primary openai, the walk stops after invoking openai alone. -/
theorem fallback_invocation_bounds_witness :
    ∃ pre,
      (call_with_fallback behAllOk (providers_to_try .openai)).2 =
        pre ++ [.openai] ∧
      ∀ p ∈ pre, ∀ r', behAllOk p ≠ .ok r' :=
  (fallback_invocation_bounds behAllOk .openai).2.2.2 respStub .openai false rfl

/-- Witness for `all_providers_fail_503`: all three providers time out on the
hint-free request and the endpoint answers 503 with the huggingface
timeout's message. -/
theorem all_providers_fail_503_witness :
    chat_completions reqStub true behAllTimeout true =
      .error (503, "LLM provider error: timeout from huggingface") :=
  (all_providers_fail_503 reqStub behAllTimeout timeoutOf true .huggingface
    (by decide) rfl).2

/-- Witness for `db_failure_cost_zero`: the hint-free request served by
openai with a failing cost write returns 200 with cost 0. -/
theorem db_failure_cost_zero_witness :
    chat_completions reqStub true behAllOk false =
      .ok { id := "req-000000000000"
            model := "gpt-4"
            content := "ok"
            finish_reason := some "stop"
            prompt_tokens := 1
            completion_tokens := 2
            total_tokens := 3
            provider := "openai"
            cost_usd := 0 } :=
  db_failure_cost_zero reqStub behAllOk respStub .openai false rfl

/-- Witness for `override_unreachable_from_api`: adding a model override to
the request does not change the selected primary. -/
theorem override_unreachable_from_api_witness :
    handler_primary reqStub = handler_primary reqStubModel :=
  override_unreachable_from_api.2 reqStub reqStubModel rfl rfl rfl

end LLMGateway

namespace LLMGateway

/-- C8 counterexample: at `(openai, gpt-3.5-turbo, 1000, 500)` the code's
cost, 0.0025, differs from the claimed
`⌊1000/1000⌋ · 0.0015 + ⌊500/1000⌋ · 0.002 = 0.0015`: token counts are not
floored to whole thousands (the spec's own golden value S2 agrees with the
code here). -/
theorem floored_cost_counterexample :
    calculate_cost "openai" "gpt-3.5-turbo" 1000 500 ≠
      (⌊(1000 : ℚ) / 1000⌋ : ℚ) * 0.0015 + (⌊(500 : ℚ) / 1000⌋ : ℚ) * 0.002 := by
  rw [calculate_cost_of_entry "openai" "gpt-3.5-turbo" 1000 500 rfl rfl]
  norm_num

/-- C8 amended: for every priced `(provider, model)` the cost is
`tokens_in · p_in / 1000 + tokens_out · p_out / 1000` with the token counts
divided exactly by 1000 — no flooring to whole thousands. -/
theorem cost_divides_tokens_exactly (provider model : String)
    (pin pout : ℚ) (tokens_in tokens_out : ℕ)
    (h : pricing_entry provider model = some (pin, pout)) :
    calculate_cost provider model tokens_in tokens_out =
      (tokens_in : ℚ) * pin / 1000 + (tokens_out : ℚ) * pout / 1000 := by
  obtain ⟨ll, hl, hm⟩ := Option.bind_eq_some.mp h
  rw [calculate_cost_of_entry provider model tokens_in tokens_out hl hm]
  ring

/-- Witness for `cost_divides_tokens_exactly`: 1500 input tokens of
gpt-3.5-turbo cost 1.5 times the per-1K input price. -/
theorem cost_divides_tokens_exactly_witness :
    calculate_cost "openai" "gpt-3.5-turbo" 1500 0 =
      (1500 : ℚ) * 0.0015 / 1000 + (0 : ℚ) * 0.002 / 1000 :=
  cost_divides_tokens_exactly "openai" "gpt-3.5-turbo" 0.0015 0.002 1500 0 rfl

/-- C9: the pricing lookup policy of `calculate_cost`: an exact
`(provider, model)` entry is used when present; a known provider with an
unpriced model falls back to the first entry listed under that provider; an
unknown provider yields zero. -/
theorem pricing_lookup_policy :
    (∀ (provider model : String) (pin pout : ℚ) (tokens_in tokens_out : ℕ),
      pricing_entry provider model = some (pin, pout) →
      calculate_cost provider model tokens_in tokens_out =
        (tokens_in : ℚ) / 1000 * pin + (tokens_out : ℚ) / 1000 * pout) ∧
    (∀ (provider model : String) (l : List (String × ℚ × ℚ)) (m₀ : String)
      (pin pout : ℚ) (tokens_in tokens_out : ℕ),
      PRICING.lookup provider = some l → l.lookup model = none →
      l.head? = some (m₀, pin, pout) →
      calculate_cost provider model tokens_in tokens_out =
        (tokens_in : ℚ) / 1000 * pin + (tokens_out : ℚ) / 1000 * pout) ∧
    (∀ (provider model : String) (tokens_in tokens_out : ℕ),
      PRICING.lookup provider = none →
      calculate_cost provider model tokens_in tokens_out = 0) := by
  refine ⟨?_, ?_, ?_⟩
  · intro provider model pin pout tokens_in tokens_out h
    obtain ⟨ll, hl, hm⟩ := Option.bind_eq_some.mp h
    exact calculate_cost_of_entry provider model tokens_in tokens_out hl hm
  · intro provider model l m₀ pin pout tokens_in tokens_out hl hm hh
    exact calculate_cost_of_first provider model tokens_in tokens_out hl hm hh
  · intro provider model tokens_in tokens_out hl
    exact calculate_cost_of_unknown model tokens_in tokens_out hl

/-- Witness for `pricing_lookup_policy`: an exact hit, a model falling back
to the first openai entry (gpt-4's prices), and an unknown provider. -/
theorem pricing_lookup_policy_witness :
    calculate_cost "openai" "gpt-4" 10 20 =
      (10 : ℚ) / 1000 * 0.03 + (20 : ℚ) / 1000 * 0.06 ∧
    calculate_cost "openai" "gpt-x" 10 20 =
      (10 : ℚ) / 1000 * 0.03 + (20 : ℚ) / 1000 * 0.06 ∧
    calculate_cost "anthropic" "claude" 10 20 = 0 :=
  ⟨pricing_lookup_policy.1 "openai" "gpt-4" 0.03 0.06 10 20 rfl,
   pricing_lookup_policy.2.1 "openai" "gpt-x" _ "gpt-4" 0.03 0.06 10 20
     rfl rfl rfl,
   pricing_lookup_policy.2.2 "anthropic" "claude" 10 20 rfl⟩

end LLMGateway
